import Mathlib

/-!
Verification of the nsoc constant resolver/emitter (src/src/lib.rs).

The crate exports two build-script helpers:

* a constant emitter (lib.rs lines 100-129) that resolves a constant
  against an environment-variable override and prints the declaration
  line plus a cargo rerun directive, and
* a file-setup helper (lib.rs lines 60-78) that computes the output
  path inside OUT_DIR and opens the file.

We embed both shallowly: the environment is an explicit lookup
function, the printed lines become a list of strings, and the panic
on a parse failure becomes the error branch of Except.
-/

namespace Nsoc

/-- Build environment: maps a variable name to an optional string value.
Models the lookup performed at lib.rs line 113. -/
def Env : Type := String → Option String

/-- Resolution of the constant value, lib.rs lines 113-121: if the
environment variable named after the constant is present, parse it with
the declared type's parsing rule (Ok gives the value, Err panics with
the raw error, line 117); if absent, use the default unchanged
(line 120). -/
def resolve_const_value {α : Type} (parse : String → Except String α)
    (default_value : α) (const_name : String) (env : Env) :
    Except String α :=
  match env const_name with
  | some env_var =>
    match parse env_var with
    | .ok value => .ok value
    | .error err => .error err
  | none => .ok default_value

/-- The declaration text printed at lib.rs line 123. The format string
hardcodes public visibility and always prints the comment argument;
the modifiers literal is never consulted. -/
def render_decl (comment const_name const_type value_str : String) :
    String :=
  comment ++ "\n pub const " ++ const_name ++ ": " ++ const_type
    ++ " = " ++ value_str ++ ";\n"

/-- The cargo directive printed at lib.rs line 126, asking the build
orchestrator to re-run when the named environment variable changes. -/
def rerun_directive (const_name : String) : String :=
  "cargo:rerun-if-env-changed=" ++ const_name

/-- Full form of the constant emitter, lib.rs lines 112-127.  On
success it prints the declaration line then the rerun directive (the
list of emitted strings, in order); a parse failure panics with the raw
error before anything is printed.  The filehandle argument is bound by
the source but unused (the file write at line 124 is commented out),
and the modifiers literal is bound but never read in the expansion. -/
def write_const {σ α : Type} (modifiers : String) (filehandle : σ)
    (const_name : String) (const_type : String)
    (parse : String → Except String α) (display : α → String)
    (default_value : α) (comment : String) (env : Env) :
    Except String (List String) :=
  match resolve_const_value parse default_value const_name env with
  | .ok const_value =>
    .ok [render_decl comment const_name const_type (display const_value),
         rerun_directive const_name]
  | .error err => .error err

/-- Four-argument short form, lib.rs lines 102-104: expands to the
full form with modifiers literal "nodoc" and an empty comment. -/
def write_const_nc {σ α : Type} (filehandle : σ)
    (const_name const_type : String) (parse : String → Except String α)
    (display : α → String) (default_value : α) (env : Env) :
    Except String (List String) :=
  write_const "nodoc" filehandle const_name const_type parse display
    default_value "" env

/-- Five-argument short form, lib.rs lines 107-109: expands to the
full form with an empty modifiers literal. -/
def write_const_nm {σ α : Type} (filehandle : σ)
    (const_name const_type : String) (parse : String → Except String α)
    (display : α → String) (default_value : α) (comment : String)
    (env : Env) : Except String (List String) :=
  write_const "" filehandle const_name const_type parse display
    default_value comment env

/-- A constant specification as one invocation supplies it: modifiers
literal, constant name, type tag with its parsing and display rules,
default value and comment (spec.md section 3, ConstantSpec). -/
structure ConstantSpec (α : Type) where
  modifiers : String
  const_name : String
  const_type : String
  parse : String → Except String α
  display : α → String
  default_value : α
  comment : String

/-- Running the emitter on a bundled specification. -/
def write_const_spec {α : Type} (s : ConstantSpec α) (env : Env) :
    Except String (List String) :=
  write_const s.modifiers () s.const_name s.const_type s.parse
    s.display s.default_value s.comment env

/-- Output path computed by the file-setup helper, lib.rs line 70:
OUT_DIR joined with the supplied filename plus a ".rs" suffix. -/
def out_path (out_dir filename : String) : String :=
  out_dir ++ "/" ++ filename ++ ".rs"

/-- Diagnostic literal passed to expect at lib.rs line 73.  The
placeholder braces are part of the literal: expect takes a single
message argument, so the filename passed alongside is never
interpolated (and the extra argument does not even compile). -/
def file_create_error_msg (filename : String) : String :=
  "Could not create file \x7b\x7d!"

/-- Default filename built at lib.rs line 64 when no filename is
supplied: the package name with the "_nsdcs.rs" suffix. -/
def default_filename (pkg_name : String) : String :=
  pkg_name ++ "_nsdcs.rs"

/-- The name invoked by the no-filename arm at lib.rs line 64. -/
def invoked_name_no_filename : String := "create_const_file"

/-- The names the crate actually defines and exports
(lib.rs lines 60, 100 and 134). -/
def exported_names : List String :=
  ["write_file", "write_const", "load_const"]

/-- Whether the first character list occurs contiguously inside the
second. -/
def charListInfix (pat : List Char) : List Char → Bool
  | [] => pat.isEmpty
  | c :: rest => pat.isPrefixOf (c :: rest) || charListInfix pat rest

/-- Substring test used to state which pieces of text a diagnostic
contains. -/
def strContains (s pat : String) : Bool :=
  charListInfix pat.data s.data

/-- Model of the parsing rule of the usize type tag, used to
instantiate the parametric theorems at concrete inputs: a non-empty
all-digit string parses to its numeric value, anything else yields the
standard-library error text. -/
def parseUsize (s : String) : Except String Nat :=
  match s.data with
  | [] => .error "cannot parse integer from empty string"
  | cs =>
    if cs.all (fun c => c.isDigit) then
      .ok (cs.foldl (fun acc c => acc * 10 + (c.toNat - 48)) 0)
    else
      .error "invalid digit found in string"

end Nsoc

open Nsoc

/-- C1: when the environment variable named after the constant is
unset, the rendered declaration uses the supplied default value,
unchanged. -/
theorem write_const_env_unset_uses_default {σ α : Type}
    (modifiers : String) (filehandle : σ)
    (const_name const_type : String) (parse : String → Except String α)
    (display : α → String) (default_value : α) (comment : String)
    (env : Env) (h : env const_name = none) :
    write_const modifiers filehandle const_name const_type parse display
      default_value comment env
      = .ok [render_decl comment const_name const_type
               (display default_value),
             rerun_directive const_name] := by
  unfold write_const resolve_const_value
  simp only [h]

/-- Witness for C1 at a concrete input: DEFAULT_WIDTH of type usize
with default 150 under an empty environment renders with value 150. -/
theorem write_const_env_unset_uses_default_witness :
    (fun _ => none : Env) "DEFAULT_WIDTH" = none ∧
    write_const "" () "DEFAULT_WIDTH" "usize" parseUsize toString 150 ""
        (fun _ => none)
      = .ok ["\n pub const DEFAULT_WIDTH: usize = 150;\n",
             "cargo:rerun-if-env-changed=DEFAULT_WIDTH"] :=
  ⟨rfl, write_const_env_unset_uses_default "" () "DEFAULT_WIDTH" "usize"
    parseUsize toString 150 "" (fun _ => none) rfl⟩

/-- C2: when the environment variable is set to a string that parses
successfully, the rendered declaration uses the parsed value; the
default value does not appear in the result. -/
theorem write_const_env_set_uses_parsed {σ α : Type}
    (modifiers : String) (filehandle : σ)
    (const_name const_type : String) (parse : String → Except String α)
    (display : α → String) (default_value : α) (comment : String)
    (env : Env) (s : String) (v : α)
    (h1 : env const_name = some s) (h2 : parse s = .ok v) :
    write_const modifiers filehandle const_name const_type parse display
      default_value comment env
      = .ok [render_decl comment const_name const_type (display v),
             rerun_directive const_name] := by
  unfold write_const resolve_const_value
  simp only [h1, h2]

/-- Witness for C2: DEFAULT_WIDTH with default 150 and environment
value "200" renders with value 200, not 150. -/
theorem write_const_env_set_uses_parsed_witness :
    (fun n => if n = "DEFAULT_WIDTH" then some "200" else none : Env)
        "DEFAULT_WIDTH" = some "200" ∧
    parseUsize "200" = .ok 200 ∧
    write_const "" () "DEFAULT_WIDTH" "usize" parseUsize toString 150 ""
        (fun n => if n = "DEFAULT_WIDTH" then some "200" else none)
      = .ok ["\n pub const DEFAULT_WIDTH: usize = 200;\n",
             "cargo:rerun-if-env-changed=DEFAULT_WIDTH"] :=
  ⟨rfl, rfl,
    write_const_env_set_uses_parsed "" () "DEFAULT_WIDTH" "usize"
      parseUsize toString 150 ""
      (fun n => if n = "DEFAULT_WIDTH" then some "200" else none)
      "200" 200 rfl rfl⟩

/-- C3: when the environment variable is set to a string that fails to
parse, resolution aborts with the raw parse error and no output is
produced for the constant: neither the declaration text nor the rerun
directive appears in any successful result. -/
theorem write_const_parse_failure_aborts {σ α : Type}
    (modifiers : String) (filehandle : σ)
    (const_name const_type : String) (parse : String → Except String α)
    (display : α → String) (default_value : α) (comment : String)
    (env : Env) (s err : String)
    (h1 : env const_name = some s) (h2 : parse s = .error err) :
    write_const modifiers filehandle const_name const_type parse display
      default_value comment env = .error err ∧
    ∀ out : List String,
      write_const modifiers filehandle const_name const_type parse
        display default_value comment env ≠ .ok out := by
  have he : write_const modifiers filehandle const_name const_type parse
      display default_value comment env = .error err := by
    unfold write_const resolve_const_value
    simp only [h1, h2]
  exact ⟨he, fun out hok => by rw [he] at hok; exact Except.noConfusion hok⟩

/-- Witness for C3: DEFAULT_WIDTH set to "abc" fails with the parse
error and yields no output. -/
theorem write_const_parse_failure_aborts_witness :
    (fun n => if n = "DEFAULT_WIDTH" then some "abc" else none : Env)
        "DEFAULT_WIDTH" = some "abc" ∧
    parseUsize "abc" = .error "invalid digit found in string" ∧
    (write_const "" () "DEFAULT_WIDTH" "usize" parseUsize toString 150 ""
        (fun n => if n = "DEFAULT_WIDTH" then some "abc" else none)
      = .error "invalid digit found in string" ∧
    ∀ out : List String,
      write_const "" () "DEFAULT_WIDTH" "usize" parseUsize toString 150 ""
          (fun n => if n = "DEFAULT_WIDTH" then some "abc" else none)
        ≠ .ok out) :=
  ⟨rfl, rfl,
    write_const_parse_failure_aborts "" () "DEFAULT_WIDTH" "usize"
      parseUsize toString 150 ""
      (fun n => if n = "DEFAULT_WIDTH" then some "abc" else none)
      "abc" "invalid digit found in string" rfl rfl⟩

/-- C4 counterexample: with DEFAULT_WIDTH set to "abc", the fatal
diagnostic is exactly the raw parse error and the constant's name does
not occur in it, refuting the claim that the message includes both the
name and the error. -/
theorem write_const_failure_msg_omits_name :
    write_const "" () "DEFAULT_WIDTH" "usize" parseUsize toString 150 ""
        (fun n => if n = "DEFAULT_WIDTH" then some "abc" else none)
      = .error "invalid digit found in string" ∧
    strContains "invalid digit found in string" "DEFAULT_WIDTH" = false :=
  ⟨rfl, rfl⟩

/-- C4 amended: when the override string fails to parse, the fatal
diagnostic message is exactly the raw parse error; the constant's name
is not added to it (lib.rs line 117 panics with the error alone). -/
theorem write_const_failure_msg_is_raw_error {σ α : Type}
    (modifiers : String) (filehandle : σ)
    (const_name const_type : String) (parse : String → Except String α)
    (display : α → String) (default_value : α) (comment : String)
    (env : Env) (s err : String)
    (h1 : env const_name = some s) (h2 : parse s = .error err) :
    write_const modifiers filehandle const_name const_type parse display
      default_value comment env = .error err := by
  unfold write_const resolve_const_value
  simp only [h1, h2]

/-- Witness for the amended C4: MAX_DEPTH set to "12x" aborts with the
raw error text alone. -/
theorem write_const_failure_msg_is_raw_error_witness :
    (fun n => if n = "MAX_DEPTH" then some "12x" else none : Env)
        "MAX_DEPTH" = some "12x" ∧
    parseUsize "12x" = .error "invalid digit found in string" ∧
    write_const "" () "MAX_DEPTH" "usize" parseUsize toString 8 ""
        (fun n => if n = "MAX_DEPTH" then some "12x" else none)
      = .error "invalid digit found in string" :=
  ⟨rfl, rfl,
    write_const_failure_msg_is_raw_error "" () "MAX_DEPTH" "usize"
      parseUsize toString 8 ""
      (fun n => if n = "MAX_DEPTH" then some "12x" else none)
      "12x" "invalid digit found in string" rfl rfl⟩

/-- C5: the modifiers literal is never consulted by the expansion
(lib.rs line 123 hardcodes "pub const"), so the "priv" modifier yields
the same public declaration as no modifier at all, contradicting the
crate documentation at lib.rs line 91. -/
theorem write_const_priv_still_renders_pub :
    write_const "priv" () "DEFAULT_WIDTH" "usize" parseUsize toString 150
        "" (fun _ => none)
      = write_const "" () "DEFAULT_WIDTH" "usize" parseUsize toString 150
        "" (fun _ => none) ∧
    write_const "priv" () "DEFAULT_WIDTH" "usize" parseUsize toString 150
        "" (fun _ => none)
      = .ok ["\n pub const DEFAULT_WIDTH: usize = 150;\n",
             "cargo:rerun-if-env-changed=DEFAULT_WIDTH"] ∧
    strContains "\n pub const DEFAULT_WIDTH: usize = 150;\n"
        " pub const " = true :=
  ⟨rfl, rfl, rfl⟩

/-- C6: resolution is deterministic: the same constant specification
resolved against the same environment (pointwise) yields identical
rendered output both times. -/
theorem write_const_deterministic {α : Type} (s1 s2 : ConstantSpec α)
    (e1 e2 : Env) (hs : s1 = s2) (he : ∀ n, e1 n = e2 n) :
    write_const_spec s1 e1 = write_const_spec s2 e2 := by
  cases hs
  have hee : e1 = e2 := funext he
  rw [hee]

/-- Witness for C6 at a concrete specification and two pointwise-equal
environments. -/
theorem write_const_deterministic_witness :
    ({ modifiers := "", const_name := "DEFAULT_WIDTH",
       const_type := "usize", parse := parseUsize, display := toString,
       default_value := 150, comment := "" } : ConstantSpec Nat)
      = ({ modifiers := "", const_name := "DEFAULT_WIDTH",
           const_type := "usize", parse := parseUsize,
           display := toString, default_value := 150, comment := "" }
          : ConstantSpec Nat) ∧
    (∀ n, (fun _ => none : Env) n = (fun _ => id none : Env) n) ∧
    write_const_spec
        ({ modifiers := "", const_name := "DEFAULT_WIDTH",
           const_type := "usize", parse := parseUsize,
           display := toString, default_value := 150, comment := "" }
          : ConstantSpec Nat) (fun _ => none)
      = write_const_spec
        ({ modifiers := "", const_name := "DEFAULT_WIDTH",
           const_type := "usize", parse := parseUsize,
           display := toString, default_value := 150, comment := "" }
          : ConstantSpec Nat) (fun _ => id none) :=
  ⟨rfl, fun _ => rfl,
    write_const_deterministic _ _ (fun _ => none) (fun _ => id none)
      rfl (fun _ => rfl)⟩

/-- C7: every successful resolution emits the cargo directive asking
the build orchestrator to re-run when the environment variable named
after the constant changes. -/
theorem write_const_ok_emits_rerun {σ α : Type}
    (modifiers : String) (filehandle : σ)
    (const_name const_type : String) (parse : String → Except String α)
    (display : α → String) (default_value : α) (comment : String)
    (env : Env) (out : List String)
    (h : write_const modifiers filehandle const_name const_type parse
           display default_value comment env = .ok out) :
    rerun_directive const_name ∈ out := by
  unfold write_const at h
  cases hres : resolve_const_value parse default_value const_name env with
  | ok v =>
    rw [hres] at h
    injection h with h
    rw [← h]
    exact List.mem_cons_of_mem _ (List.mem_singleton_self _)
  | error e =>
    rw [hres] at h
    exact Except.noConfusion h

/-- Witness for C7: a successful resolution of DEFAULT_WIDTH contains
the rerun directive among its emitted lines. -/
theorem write_const_ok_emits_rerun_witness :
    write_const "" () "DEFAULT_WIDTH" "usize" parseUsize toString 150 ""
        (fun _ => none)
      = .ok ["\n pub const DEFAULT_WIDTH: usize = 150;\n",
             "cargo:rerun-if-env-changed=DEFAULT_WIDTH"] ∧
    rerun_directive "DEFAULT_WIDTH"
      ∈ ["\n pub const DEFAULT_WIDTH: usize = 150;\n",
         "cargo:rerun-if-env-changed=DEFAULT_WIDTH"] :=
  ⟨rfl,
    write_const_ok_emits_rerun "" () "DEFAULT_WIDTH" "usize" parseUsize
      toString 150 "" (fun _ => none) _ rfl⟩

/-- C8: the diagnostic passed to expect at lib.rs line 73 is the fixed
literal with an uninterpolated placeholder: neither the filename nor
the full output path occurs in it (and the extra argument given to
expect is itself a compile error). -/
theorem file_create_error_msg_lacks_path :
    file_create_error_msg "myconsts" = "Could not create file \x7b\x7d!" ∧
    strContains (file_create_error_msg "myconsts") "myconsts" = false ∧
    strContains (file_create_error_msg "myconsts")
      (out_path "out" "myconsts") = false :=
  ⟨rfl, rfl, rfl⟩

/-- C9: the no-filename arm at lib.rs line 64 invokes a name the crate
never defines, and even under the intended delegation to the
filename arm the default file would be named "mypkg_nsdcs.rs.rs",
because line 70 appends ".rs" to a default that already carries it —
not the documented "mypkg_nsdcs.rs". -/
theorem write_file_default_filename_bug :
    invoked_name_no_filename ∉ exported_names ∧
    out_path "out" (default_filename "mypkg") = "out/mypkg_nsdcs.rs.rs" ∧
    out_path "out" (default_filename "mypkg") ≠ "out/mypkg_nsdcs.rs" := by
  refine ⟨by decide, rfl, by decide⟩

/-- C10: the short forms are definitionally the full form: the
four-argument call equals the full call with modifiers "nodoc" and an
empty comment, and the five-argument call equals the full call with an
empty modifiers literal. -/
theorem write_const_short_forms_are_full_form {σ α : Type}
    (filehandle : σ) (const_name const_type : String)
    (parse : String → Except String α) (display : α → String)
    (default_value : α) (comment : String) (env : Env) :
    write_const_nc filehandle const_name const_type parse display
        default_value env
      = write_const "nodoc" filehandle const_name const_type parse
        display default_value "" env ∧
    write_const_nm filehandle const_name const_type parse display
        default_value comment env
      = write_const "" filehandle const_name const_type parse display
        default_value comment env :=
  ⟨rfl, rfl⟩
